import Mathlib

/-!
Verification of `packages/@mantine/hooks/src/use-file-dialog/use-file-dialog.ts`.

The TypeScript hook `useFileDialog` is shallowly embedded as pure Lean
functions over an explicit controller state.  File handles are abstract
values with an identity; a platform `FileList` is an ordered collection of
file handles.  Observable side effects (invocations of the caller-supplied
`onChange` callback, programmatic clicks on the hidden input) are recorded
in an event trace, newest last.  DOM semantics that the source relies on
are embedded where the source touches them:

* `addEventListener` with an `AbortSignal` that is already aborted does not
  register the listener; aborting the signal removes every listener bound
  to it;
* assigning `''` to a file input's `value` clears its committed file list;
* `useIsomorphicEffect` runs the effect body only in an environment that
  has a `document`, so the effect setup is modelled for that environment,
  while `createInput` itself keeps its no-document branch.
-/

namespace UseFileDialog

/-- An abstract platform file handle. -/
structure File where
  id : Nat
deriving DecidableEq, Repr

/-- A platform `FileList`: an ordered, index-addressable collection of
file handles. -/
structure FileList where
  toList : List File
deriving DecidableEq, Repr

/-- `UseFileDialogOptions` from the source.  Optional scalar fields are
`Option`-valued (`none` means the caller did not supply the key).  The
`initialFiles` field is `FileList | File[]`, embedded as a sum.  The two
callbacks are functions in the source; only their presence matters here,
because their invocations are observed through the event trace. -/
structure UseFileDialogOptions where
  multiple : Option Bool := none
  accept : Option String := none
  capture : Option String := none
  directory : Option Bool := none
  resetOnOpen : Option Bool := none
  initialFiles : Option (FileList ⊕ List File) := none
  onChange : Bool := false
  onCancel : Bool := false
deriving DecidableEq, Repr

/-- JavaScript truthiness of an optional boolean option
(`undefined` and `false` are falsy). -/
def optTruthy (b : Option Bool) : Bool :=
  b.getD false

/-- JavaScript truthiness of an optional string option
(`undefined` and the empty string are falsy). -/
def strTruthy (s : Option String) : Bool :=
  match s with
  | none => false
  | some str => str != ""

/-- `defaultOptions` from the source. -/
def defaultOptions : UseFileDialogOptions :=
  { multiple := some true, accept := some "*" }

/-- The spread `{ ...d, ...i }`: every key supplied by `i` overrides the
corresponding key of `d`. -/
def mergeOptions (d i : UseFileDialogOptions) : UseFileDialogOptions :=
  { multiple := i.multiple <|> d.multiple
    accept := i.accept <|> d.accept
    capture := i.capture <|> d.capture
    directory := i.directory <|> d.directory
    resetOnOpen := i.resetOnOpen <|> d.resetOnOpen
    initialFiles := i.initialFiles <|> d.initialFiles
    onChange := i.onChange || d.onChange
    onCancel := i.onCancel || d.onCancel }

/-- `DataTransfer.items.add`: appends one file to the synthesized
collection. -/
def dataTransferAdd (items : List File) (file : File) : List File :=
  items ++ [file]

/-- `getInitialFilesList` from the source.  `!files` is true exactly for
an absent input (both a `FileList` object and an array, even empty ones,
are truthy in JavaScript). -/
def getInitialFilesList (files : Option (FileList ⊕ List File)) :
    Option FileList :=
  match files with
  | none => none
  | some (Sum.inl fileList) => some fileList
  | some (Sum.inr arr) => some ⟨arr.foldl dataTransferAdd []⟩

/-- The hidden `<input type=file>` element built by `createInput`.
`value` is the committed value string of the input; `files` is the file
collection the input currently reports. -/
structure InputElement where
  type : String := ""
  accept : String := ""
  multiple : Bool := false
  capture : String := ""
  webkitdirectory : Bool := false
  displayNone : Bool := false
  value : String := ""
  files : Option FileList := none
deriving DecidableEq, Repr

/-- `createInput` from the source: `null` when no `document` exists,
otherwise a hidden file input configured from the options (each attribute
is assigned only when the option is truthy). -/
def createInput (hasDocument : Bool) (options : UseFileDialogOptions) :
    Option InputElement :=
  if hasDocument = false then
    none
  else
    let input : InputElement := { type := "file" }
    let input :=
      if strTruthy options.accept then
        { input with accept := options.accept.getD "" }
      else input
    let input :=
      if optTruthy options.multiple then
        { input with multiple := optTruthy options.multiple }
      else input
    let input :=
      if strTruthy options.capture then
        { input with capture := options.capture.getD "" }
      else input
    let input :=
      if optTruthy options.directory then
        { input with webkitdirectory := optTruthy options.directory }
      else input
    some { input with displayNone := true }

/-- Observable side effects of the hook, recorded in order. -/
inductive Event where
  /-- `options.onChange` was invoked with the given argument. -/
  | onChangeCall (files : Option FileList)
  /-- `inputRef.current.click()` was invoked. -/
  | click
deriving DecidableEq, Repr

/-- The mutable state of one `useFileDialog` controller instance:
the React `files` state, the `inputRef` ref, the single `AbortController`
(created once per instance by `useRef` and never replaced — only its
aborted flag matters), whether a live change listener is currently bound,
and the trace of observable side effects. -/
structure HookState where
  files : Option FileList
  inputRef : Option InputElement
  signalAborted : Bool
  listenerActive : Bool
  trace : List Event
deriving DecidableEq, Repr

/-- The state of the hook right after the initial render:
`useState(getInitialFilesList(options.initialFiles))`, an empty `inputRef`,
a fresh `AbortController`, no listener yet, nothing observed yet.
`input` is the raw argument of `useFileDialog`; the merge with
`defaultOptions` happens here as in the source. -/
def useFileDialogState (input : UseFileDialogOptions) : HookState :=
  let options := mergeOptions defaultOptions input
  { files := getInitialFilesList options.initialFiles
    inputRef := none
    signalAborted := false
    listenerActive := false
    trace := [] }

/-- The body of the `useIsomorphicEffect`: build the input via
`createInput`, store it in `inputRef`, attach it to the document, and bind
the change listener with the instance's abort signal.  The effect body
only runs in an environment with a `document`, so `createInput` is called
with `hasDocument := true`.  Per DOM semantics, `addEventListener` with an
already-aborted signal does not register the listener. -/
def effectSetup (options : UseFileDialogOptions) (s : HookState) :
    HookState :=
  { s with
    inputRef := createInput true options
    listenerActive := !s.signalAborted }

/-- The cleanup returned by the effect: `abortController.current.abort()`
(which detaches every listener bound to the signal) and
`inputRef.current?.remove()`.  The ref itself keeps pointing at the
removed element. -/
def effectCleanup (s : HookState) : HookState :=
  { s with signalAborted := true, listenerActive := false }

/-- The change listener registered by the effect, exactly as written:
if `inputRef.current?.files` is truthy, replace the React state with that
collection and invoke `options.onChange` with it; otherwise do nothing.
It runs only while a live listener is bound. -/
def handleChange (options : UseFileDialogOptions) (s : HookState) :
    HookState :=
  if s.listenerActive then
    match s.inputRef with
    | some input =>
      match input.files with
      | some fl =>
        { s with
          files := some fl
          trace := s.trace ++
            (if options.onChange then [Event.onChangeCall (some fl)]
             else []) }
      | none => s
    | none => s
  else s

/-- A native change notification: the platform commits `reported` as the
input element's file collection and fires the `change` event on it, which
runs `handleChange` (the listener registered by the most recent effect,
whose captured configuration is `options`).  Nothing happens when no input
element exists. -/
def nativeChange (options : UseFileDialogOptions)
    (reported : Option FileList) (s : HookState) : HookState :=
  match s.inputRef with
  | none => s
  | some input =>
    handleChange options { s with inputRef := some { input with files := reported } }

/-- `reset` from the source: `setFiles(null)`; if the input exists, clear
its value (which, per platform semantics of a file input, also clears its
committed file collection) and invoke `options.onChange` with `null`. -/
def reset (options : UseFileDialogOptions) (s : HookState) : HookState :=
  let s1 := { s with files := (none : Option FileList) }
  match s1.inputRef with
  | some input =>
    { s1 with
      inputRef := some { input with value := "", files := none }
      trace := s1.trace ++
        (if options.onChange then [Event.onChangeCall none] else []) }
  | none => s1

/-- `open` from the source (`open` is a Lean keyword, hence the name):
when `options.resetOnOpen` is truthy, first run the full `reset`, then
`inputRef.current?.click()`. -/
def openDialog (options : UseFileDialogOptions) (s : HookState) :
    HookState :=
  let s1 := if optTruthy options.resetOnOpen then reset options s else s
  match s1.inputRef with
  | some _ => { s1 with trace := s1.trace ++ [Event.click] }
  | none => s1

/-! Concrete configurations and states used in closed statements. -/

/-- A caller configuration supplying only an `onChange` callback. -/
def inputA : UseFileDialogOptions := { onChange := true }

/-- A second, different caller configuration (an accept filter was added),
standing for a configuration change. -/
def inputB : UseFileDialogOptions := { accept := some "image/*", onChange := true }

/-- A caller configuration with `resetOnOpen: true` and `onChange`. -/
def inputR : UseFileDialogOptions := { resetOnOpen := some true, onChange := true }

/-- `inputA` merged over the defaults. -/
def cfgA : UseFileDialogOptions := mergeOptions defaultOptions inputA

/-- `inputB` merged over the defaults. -/
def cfgB : UseFileDialogOptions := mergeOptions defaultOptions inputB

/-- `inputR` merged over the defaults. -/
def cfgR : UseFileDialogOptions := mergeOptions defaultOptions inputR

/-- A concrete one-file collection reported by a pick. -/
def pickedFiles : FileList := ⟨[⟨1⟩]⟩

/-- The controller state right after the first effect ran for `cfgA`. -/
def stateA : HookState := effectSetup cfgA (useFileDialogState inputA)

/-- The controller state right after the first effect ran for `cfgR`. -/
def stateR : HookState := effectSetup cfgR (useFileDialogState inputR)

/-- The input element that `createInput` builds for `cfgR`. -/
def inputElemR : InputElement :=
  { type := "file", accept := "*", multiple := true, displayNone := true }

/-- C1: after a configuration change (teardown of the first pair, setup of
a second), a native change notification on the newly created input updates
neither the selection state nor fires `onChange` — the second listener was
registered with the instance's single, already-aborted `AbortController`
signal, so it was never bound.  The third conjunct shows the same
notification on the first (pre-change) pair does update the selection,
pinpointing the divergence at the configuration change. -/
theorem configChange_new_pair_is_dead :
    (nativeChange cfgB (some pickedFiles)
      (effectSetup cfgB (effectCleanup (effectSetup cfgA (useFileDialogState inputA))))).files
        = none ∧
    (nativeChange cfgB (some pickedFiles)
      (effectSetup cfgB (effectCleanup (effectSetup cfgA (useFileDialogState inputA))))).trace
        = [] ∧
    (nativeChange cfgA (some pickedFiles)
      (effectSetup cfgA (useFileDialogState inputA))).files = some pickedFiles ∧
    (nativeChange cfgA (some pickedFiles)
      (effectSetup cfgA (useFileDialogState inputA))).trace
        = [Event.onChangeCall (some pickedFiles)] := by
  exact ⟨by decide, by decide, by decide, by decide⟩

/-- C2: a native change notification arriving after the effect cleanup
(unmount) has run neither mutates the selection state nor invokes
`onChange` — the cleanup aborted the signal, detaching the listener. -/
theorem nativeChange_after_cleanup_noop (options : UseFileDialogOptions)
    (reported : Option FileList) (s : HookState) :
    (nativeChange options reported (effectCleanup s)).files = (effectCleanup s).files ∧
    (nativeChange options reported (effectCleanup s)).trace = (effectCleanup s).trace := by
  unfold nativeChange handleChange effectCleanup
  cases s.inputRef <;> simp

/-- C3: when the caller does not supply `resetOnOpen`, the merged
configuration leaves it absent, and `open()` leaves the selection
untouched and appends at most a click to the trace — in particular no
`onChangeCall none` reset event precedes the activation. -/
theorem open_without_resetOnOpen (input : UseFileDialogOptions) (s : HookState)
    (h : input.resetOnOpen = none) :
    (mergeOptions defaultOptions input).resetOnOpen = none ∧
    (openDialog (mergeOptions defaultOptions input) s).files = s.files ∧
    ((openDialog (mergeOptions defaultOptions input) s).trace = s.trace ∨
     (openDialog (mergeOptions defaultOptions input) s).trace = s.trace ++ [Event.click]) := by
  have hm : (mergeOptions defaultOptions input).resetOnOpen = none := by
    simp [mergeOptions, defaultOptions, h]
  refine ⟨hm, ?_, ?_⟩ <;>
    · unfold openDialog
      rw [hm]
      cases hi : s.inputRef <;> simp [optTruthy, hi]

/-- Witness for C3 at the concrete configuration `inputA` (which does not
supply `resetOnOpen`) and the freshly mounted state `stateA`. -/
theorem open_without_resetOnOpen_witness :
    inputA.resetOnOpen = none ∧
    ((mergeOptions defaultOptions inputA).resetOnOpen = none ∧
     (openDialog (mergeOptions defaultOptions inputA) stateA).files = stateA.files ∧
     ((openDialog (mergeOptions defaultOptions inputA) stateA).trace = stateA.trace ∨
      (openDialog (mergeOptions defaultOptions inputA) stateA).trace
        = stateA.trace ++ [Event.click])) :=
  ⟨rfl, open_without_resetOnOpen inputA stateA rfl⟩

/-- C4: after `reset()` the selection is `null`; `onChange(null)` is
appended to the trace exactly once when an input element exists and not at
all when none exists; when it exists, its committed value is cleared. -/
theorem reset_contract (options : UseFileDialogOptions) (s : HookState)
    (h : options.onChange = true) :
    (reset options s).files = none ∧
    (reset options s).trace = s.trace ++
      (match s.inputRef with
       | some _ => [Event.onChangeCall none]
       | none => []) ∧
    (reset options s).inputRef =
      (match s.inputRef with
       | some input => some { input with value := "", files := none }
       | none => none) := by
  unfold reset
  cases s.inputRef <;> simp [h]

/-- Witness for C4 at the merged configuration `cfgA` (which supplies
`onChange`) and the freshly mounted state `stateA`. -/
theorem reset_contract_witness :
    cfgA.onChange = true ∧
    ((reset cfgA stateA).files = none ∧
     (reset cfgA stateA).trace = stateA.trace ++
       (match stateA.inputRef with
        | some _ => [Event.onChangeCall none]
        | none => []) ∧
     (reset cfgA stateA).inputRef =
       (match stateA.inputRef with
        | some input => some { input with value := "", files := none }
        | none => none)) :=
  ⟨rfl, reset_contract cfgA stateA rfl⟩

/-- C5: with `resetOnOpen` truthy, `open()` runs the full reset contract
strictly before activating the trigger: the trace grows by
`onChangeCall none` followed by `click`, in that order. -/
theorem open_resetOnOpen_orders_reset_before_click (options : UseFileDialogOptions)
    (s : HookState) (input : InputElement)
    (h1 : optTruthy options.resetOnOpen = true) (h2 : options.onChange = true)
    (h3 : s.inputRef = some input) :
    (openDialog options s).trace = s.trace ++ [Event.onChangeCall none, Event.click] := by
  unfold openDialog reset
  simp [h1, h2, h3]

/-- Witness for C5 at the merged configuration `cfgR` (`resetOnOpen: true`
with `onChange` supplied) and the freshly mounted state `stateR`. -/
theorem open_resetOnOpen_orders_reset_before_click_witness :
    (optTruthy cfgR.resetOnOpen = true ∧ cfgR.onChange = true ∧
      stateR.inputRef = some inputElemR) ∧
    (openDialog cfgR stateR).trace
      = stateR.trace ++ [Event.onChangeCall none, Event.click] :=
  ⟨⟨by decide, by decide, by decide⟩,
    open_resetOnOpen_orders_reset_before_click cfgR stateR inputElemR
      (by decide) (by decide) (by decide)⟩

/-- C6: the change listener either does nothing at all, or the input
element reported a non-null collection, the selection was replaced by that
same collection, and the only event emitted is `onChange` with that very
collection — `onChange` is never invoked with `null` from this path, and a
missing collection yields no state update and no callback. -/
theorem handleChange_only_nonnull (options : UseFileDialogOptions) (s : HookState) :
    handleChange options s = s ∨
    ∃ input fl, s.inputRef = some input ∧ input.files = some fl ∧
      (handleChange options s).files = some fl ∧
      (handleChange options s).trace = s.trace ++
        (if options.onChange then [Event.onChangeCall (some fl)] else []) := by
  unfold handleChange
  cases hl : s.listenerActive with
  | false => exact Or.inl rfl
  | true =>
    cases hi : s.inputRef with
    | none => exact Or.inl (by simp [hi])
    | some input =>
      cases hf : input.files with
      | none => exact Or.inl (by simp [hi, hf])
      | some fl =>
        refine Or.inr ⟨input, fl, rfl, hf, ?_, ?_⟩ <;> simp [hi, hf]

/-- Auxiliary: the `DataTransfer.items.add` loop of `getInitialFilesList`
appends its input, in order, to the accumulator. -/
theorem foldl_dataTransferAdd (fs acc : List File) :
    fs.foldl dataTransferAdd acc = acc ++ fs := by
  induction fs generalizing acc with
  | nil => simp
  | cons f rest ih => simp [dataTransferAdd, ih]

/-- C7: for an ordered sequence of file handles, `getInitialFilesList`
synthesizes a collection holding exactly the input handles in the same
order (hence equal length, order preserved, duplicates preserved). -/
theorem getInitialFilesList_array (fs : List File) :
    ∃ fl, getInitialFilesList (some (Sum.inr fs)) = some fl ∧
      fl.toList = fs ∧ fl.toList.length = fs.length := by
  refine ⟨⟨fs.foldl dataTransferAdd []⟩, rfl, ?_, ?_⟩ <;>
    simp [foldl_dataTransferAdd]

/-- C8: an input that is already a platform collection is returned
unchanged — `getInitialFilesList` is the identity on the `FileList`
branch. -/
theorem getInitialFilesList_fileList_identity (fl : FileList) :
    getInitialFilesList (some (Sum.inl fl)) = some fl := rfl

/-- C9: with no display environment `createInput` returns `null` rather
than an error value; on a state whose `inputRef` is empty, `open()` emits
no event and touches no input (only `resetOnOpen`, when truthy, clears the
selection through `reset`), and `reset()` clears the selection without
emitting any event. -/
theorem no_document_noop (options : UseFileDialogOptions) (s : HookState)
    (h : s.inputRef = none) :
    createInput false options = none ∧
    (openDialog options s).trace = s.trace ∧
    (openDialog options s).inputRef = none ∧
    (openDialog options s).files =
      (if optTruthy options.resetOnOpen then none else s.files) ∧
    (reset options s).files = none ∧
    (reset options s).trace = s.trace := by
  refine ⟨rfl, ?_, ?_, ?_, ?_, ?_⟩ <;>
    · cases hr : optTruthy options.resetOnOpen <;>
        simp [openDialog, reset, h, hr]

/-- Witness for C9 at the merged configuration `cfgA` and the
pre-effect state `useFileDialogState inputA`, whose `inputRef` is empty. -/
theorem no_document_noop_witness :
    (useFileDialogState inputA).inputRef = none ∧
    (createInput false cfgA = none ∧
     (openDialog cfgA (useFileDialogState inputA)).trace
       = (useFileDialogState inputA).trace ∧
     (openDialog cfgA (useFileDialogState inputA)).inputRef = none ∧
     (openDialog cfgA (useFileDialogState inputA)).files =
       (if optTruthy cfgA.resetOnOpen then none
        else (useFileDialogState inputA).files) ∧
     (reset cfgA (useFileDialogState inputA)).files = none ∧
     (reset cfgA (useFileDialogState inputA)).trace
       = (useFileDialogState inputA).trace) :=
  ⟨rfl, no_document_noop cfgA (useFileDialogState inputA) rfl⟩

/-- C10: an empty ordered sequence maps to a non-null, zero-length
collection; only the absent input maps to `null` — every present input
yields a collection. -/
theorem getInitialFilesList_empty_array :
    getInitialFilesList (some (Sum.inr ([] : List File))) = some ⟨[]⟩ ∧
    (getInitialFilesList (some (Sum.inr ([] : List File)))).isSome = true ∧
    getInitialFilesList (none : Option (FileList ⊕ List File)) = none ∧
    ∀ x : FileList ⊕ List File, (getInitialFilesList (some x)).isSome = true := by
  refine ⟨rfl, rfl, rfl, ?_⟩
  rintro (fl | arr) <;> rfl

end UseFileDialog
